import Mathlib

/-!
Shallow embedding of the medicine-reminder Streamlit application (src/app.py)
together with models of the pieces it delegates to external libraries and to
the missing db module. Definitions are translated from the source; theorems
settle the specification claims against them.
-/

namespace MedApp

/-! ## Reminder evaluator (src/app.py lines 35-84) -/

/-- A retrieved document; the code reads only `doc.page_content`. -/
structure Doc where
  page_content : String
deriving DecidableEq

/-- `format_docs` (line 35-36): joins retrieved chunks with blank lines. -/
def format_docs (docs : List Doc) : String :=
  String.intercalate "\n\n" (docs.map Doc.page_content)

/-- The similarity index. `as_retriever` (line 68) maps a query string to the
top similarity matches, in order; the nearest-neighbour search itself is the
external vector-similarity library, so it is kept abstract as a function. -/
structure VectorStore where
  as_retriever : String → List Doc

/-- The prompt template of lines 70-75 with its two fields substituted, as
`ChatPromptTemplate.from_template(...)` does when the chain invokes it. -/
def prompt_template (current_time context : String) : String :=
  "\n    Check if any medicine needs to be taken at " ++ current_time ++
  ".\n    If yes, create a reminder message. If no, respond with \"No medicines scheduled for now.\"\n    \n    Context: " ++
  context ++ "\n    "

/-- Intermediate values produced by one run of the chain of lines 77-82. -/
structure ChainTrace where
  retriever_query : String
  context : String
  prompt : String
  answer : String

/-- One invocation of the chain of lines 77-84.  The parallel dict feeds the
chain input to both branches: `retriever | format_docs` retrieves with the
chain input as the query, and `RunnablePassthrough()` forwards the same input
as `current_time`; the filled template goes to the model `llm` (the external
hosted model, abstract as a function). -/
def run_chain (vs : VectorStore) (llm : String → String) (input : String) : ChainTrace :=
  let docs := vs.as_retriever input
  let ctx := format_docs docs
  let p := prompt_template input ctx
  { retriever_query := input, context := ctx, prompt := p, answer := llm p }

/-- `check_medicine_time` (lines 39-84): formats the current time, builds the
chain and invokes it with the time string (`chain.invoke(current_time)`). -/
def check_medicine_time (vs : VectorStore) (llm : String → String) (current_time : String) : String :=
  (run_chain vs llm current_time).answer

/-- A concrete probe index whose retrieval result reveals which query was
used: the generic query returns the GENERIC document, anything else the
OTHER document. -/
def probe_store : VectorStore where
  as_retriever q :=
    if q = "what medicine context is relevant" then [⟨"GENERIC"⟩] else [⟨"OTHER"⟩]

/-! ## Text-to-speech engine (pyttsx3, lines 29 and 698-701, 713-715)

The engine is external; its observable interface in the code is `isBusy`,
`say` and `runAndWait`.  `say` queues an utterance and the engine becomes
busy; `runAndWait` processes the queue and returns with the engine idle. -/

structure Engine where
  busy : Bool
  queued : List String
  spoken : List String
deriving DecidableEq

def Engine.isBusy (e : Engine) : Bool := e.busy

def Engine.say (e : Engine) (text : String) : Engine :=
  { e with busy := true, queued := e.queued ++ [text] }

def Engine.runAndWait (e : Engine) : Engine :=
  { e with busy := false, queued := [], spoken := e.spoken ++ e.queued }

/-- Observable events of the Upload page's checking paths.  `sayCall` records
the value `engine.isBusy()` had at the moment `engine.say` was invoked. -/
inductive Event where
  | evalReminder : Event
  | stWrite : String → Event
  | stError : String → Event
  | sayCall : Bool → String → Event
  | sleepSecs : Nat → Event
deriving DecidableEq

/-- How the automatic-checking loop of lines 709-716 can stop running:
`fuelExhausted` means it was still iterating when the observation bound ran
out; `exception` means an uncaught exception escaped an iteration;
`completed` would mean the while condition became false or a break ran —
the source loop is `while True` with no break, so no branch produces it. -/
inductive LoopExit where
  | fuelExhausted : LoopExit
  | exception : String → LoopExit
  | completed : LoopExit
deriving DecidableEq

structure LoopRun where
  engine : Engine
  events : List Event
  exit : LoopExit
deriving DecidableEq

/-- The "Check Medicine Schedule" button body, lines 692-703: the evaluator
call is wrapped in try/except, the result is written, and when it is not the
no-medicines sentinel the engine speaks it behind an `isBusy` gate.  The
evaluator call is abstracted to its outcome `check` (an exception carries a
message `e`, displayed as `f"Error: {str(e)}"`). -/
def one_shot_check (check : Except String String) (eng : Engine) : Engine × List Event :=
  match check with
  | .error e => (eng, [Event.evalReminder, Event.stError ("Error: " ++ e)])
  | .ok reminder =>
    let pre := [Event.evalReminder, Event.stWrite reminder]
    if reminder ≠ "No medicines scheduled for now." then
      if eng.isBusy then (eng, pre)
      else ((eng.say reminder).runAndWait, pre ++ [Event.sayCall eng.isBusy reminder])
    else (eng, pre)

/-- The automatic-checking loop, lines 708-716: `while True:` evaluate, write,
speak behind the `isBusy` gate, sleep 60 seconds.  There is no try/except in
the loop, so a failing evaluator call exits with `LoopExit.exception`.
`check i` is the outcome of the evaluator call at iteration `i`; `fuel`
bounds how many iterations are observed. -/
def auto_check_loop (check : Nat → Except String String) (i : Nat) (eng : Engine) : Nat → LoopRun
  | 0 => ⟨eng, [], LoopExit.fuelExhausted⟩
  | fuel + 1 =>
    match check i with
    | .error e => ⟨eng, [Event.evalReminder], LoopExit.exception e⟩
    | .ok reminder =>
      let pre := [Event.evalReminder, Event.stWrite reminder]
      let step :=
        if eng.isBusy then (eng, ([] : List Event))
        else ((eng.say reminder).runAndWait, [Event.sayCall eng.isBusy reminder])
      let rest := auto_check_loop check (i + 1) step.1 fuel
      ⟨rest.engine, pre ++ step.2 ++ [Event.sleepSecs 60] ++ rest.events, rest.exit⟩

/-- Recognises the evaluator-call event. -/
def isEval : Event → Bool
  | Event.evalReminder => true
  | _ => false

/-- Recognises a sleep event. -/
def isSleep : Event → Bool
  | Event.sleepSecs _ => true
  | _ => false

/-- A sleep event sleeps exactly 60 seconds. -/
def sleepIs60 : Event → Bool
  | Event.sleepSecs n => n == 60
  | _ => true

/-- A `say` call that respects the busy gate: the engine was not busy when it
was invoked. -/
def sayRespectsBusy : Event → Bool
  | Event.sayCall b _ => !b
  | _ => true

/-! ## Python exceptions relevant to the embedded code paths -/

inductive PyError where
  | typeError : PyError
  | indexError : PyError
  | stopIteration : PyError
deriving DecidableEq

/-! ## Document ingestion (Upload page, lines 671-684) -/

/-- `text += page.extract_text()` over `pdf_reader.pages` (lines 673-675):
the concatenation of the per-page extracted text. -/
def extract_concat (pages : List String) : String :=
  String.join pages

/-- Fixed-window chunking over the character list: take 1000 characters,
step forward 800 (chunk overlap 200), as configured on lines 677-678.  The
external splitter's separator-recursive refinements are abstracted; on empty
text it, like the library, yields no chunks. -/
def chunk_step : List Char → List String
  | [] => []
  | c :: rest =>
    ((c :: rest).take 1000).asString :: chunk_step (rest.drop 799)
termination_by cs => cs.length
decreasing_by simp [List.length_drop]; omega

/-- `text_splitter.split_text(text)` (line 679), via the modelled chunker. -/
def split_text (s : String) : List String :=
  chunk_step s.toList

/-- The in-memory similarity index holding the embedded chunks. -/
structure FaissIndex where
  chunks : List String
deriving DecidableEq

/-- Models the external `FAISS.from_texts(texts, embeddings)` (line 682): it
embeds the texts and reads the first embedding for the index dimension, so an
empty text list raises IndexError; otherwise it builds the index over the
chunks. -/
def from_texts (texts : List String) : Except PyError FaissIndex :=
  match texts with
  | [] => Except.error PyError.indexError
  | _ => Except.ok ⟨texts⟩

/-- The per-session state kept in `st.session_state` (lines 100-102, 666-667):
the logged-in flag, the session user, and the cached similarity index. -/
structure Session where
  logged_in : Bool
  user : Option String
  vectorstore : Option FaissIndex
deriving DecidableEq

/-- The Upload page's ingestion of an uploaded PDF, lines 672-682: extract
and concatenate the page texts, split into chunks, build the index and store
it in the session.  No try/except surrounds this code, so an error in
`from_texts` propagates and the assignment to the session never runs. -/
def upload_ingest (pages : List String) (s : Session) : Except PyError Session :=
  let text := extract_concat pages
  let texts := split_text text
  match from_texts texts with
  | Except.error e => Except.error e
  | Except.ok idx => Except.ok { s with vectorstore := some idx }

/-! ## Credential store and its pages

The store itself lives in the db module, which is not under src/; it is
modelled from the spec.  The page handlers around it are from src/app.py. -/

structure UserRecord where
  username : String
  password : String
deriving DecidableEq

/-- Modelled from the spec: `register_user` of the missing db module.
`register(username, password) -> bool`: succeeds and persists the pair unless
username already exists, in which case it fails. -/
def register_user (store : List UserRecord) (u p : String) : Bool × List UserRecord :=
  if store.any (fun r => r.username = u) then (false, store)
  else (true, store ++ [⟨u, p⟩])

/-- Modelled from the spec: `login_user` of the missing db module.
`login(username, password) -> UserRecord | absent`: succeeds only on exact
match of both fields; returns nothing on mismatch. -/
def login_user (store : List UserRecord) (u p : String) : Option UserRecord :=
  store.find? (fun r => r.username = u && r.password = p)

/-- Outcome of one Register form submission. -/
structure RegisterOut where
  store : List UserRecord
  errors : List String
  successes : List String
  register_invoked : Bool
deriving DecidableEq

/-- The Register page's submit handler, lines 520-526: a password/confirm
mismatch reports an inline error; only otherwise is `register_user` called,
reporting success or a duplicate-username error. -/
def register_page (store : List UserRecord) (username password confirm_password : String) :
    RegisterOut :=
  if password ≠ confirm_password then
    ⟨store, ["Passwords do not match!"], [], false⟩
  else
    let r := register_user store username password
    if r.1 then
      ⟨r.2, [], ["User " ++ username ++ " registered successfully!"], true⟩
    else
      ⟨r.2, ["Username already exists!"], [], true⟩

/-- Outcome of one Login form submission. -/
structure LoginOut where
  session : Session
  errors : List String
  successes : List String
deriving DecidableEq

/-- The Login page's submit handler, lines 503-512: on a record, set the
logged-in flag and the session user and greet; otherwise report the generic
authentication error and leave the session unchanged. -/
def login_page (store : List UserRecord) (s : Session) (u p : String) : LoginOut :=
  match login_user store u p with
  | some rec =>
    ⟨{ s with logged_in := true, user := some rec.username }, [],
      ["Welcome " ++ u ++ "!"]⟩
  | none => ⟨s, ["Invalid username or password"], []⟩

/-! ## Schedule data and the Schedule & Reminders page -/

/-- A medicine schedule entry as stored and listed (lines 546-552). -/
structure Entry where
  medicine_name : String
  morning : Bool
  afternoon : Bool
  night : Bool
  dosage : String
deriving DecidableEq

/-- A reminder row as returned by the store (indices used on lines 626-632):
id, owner, medicine name, time "HH:MM", dosage. -/
structure RemRow where
  id : Nat
  owner : String
  medicine : String
  time : String
  dosage : String
deriving DecidableEq

/-- Models `st.selectbox(label, options)` (lines 606-607): with options it
returns the first one by default; with no options it returns None. -/
def selectbox (options : List String) : Option String :=
  options.head?

/-- Python's `next()` on a generator: the first produced element, or a
StopIteration when the generator is exhausted. -/
def py_next (l : List α) : Except PyError α :=
  match l with
  | [] => Except.error PyError.stopIteration
  | x :: _ => Except.ok x

/-- The dosage lookup of lines 610-611: `next(item['dosage'] for item in
schedule if item['medicine_name'] == reminder_medicine_name)`, where the
selected name comes from the selectbox over the schedule's medicine names
(None compares unequal to every name, as in Python). -/
def reminder_form_dosage (schedule : List Entry) : Except PyError String :=
  let selected := selectbox (schedule.map Entry.medicine_name)
  py_next ((schedule.filter fun item => some item.medicine_name == selected).map Entry.dosage)

/-! ## Page dispatch (the if/elif chain on lines 281-758) -/

inductive Page where
  | home | register | login | dashboard | schedule | upload | voice
deriving DecidableEq

/-- What one navigation render of a page produces: warnings, the main content
blocks, whether the Login/Register forms were rendered, how many store reads,
store writes and evaluator calls ran, and the final value of the Python local
variable `page` after the chain (reassigned to "Login" by the gates). -/
structure RenderOut where
  warnings : List String
  blocks : List String
  login_form_rendered : Bool
  register_form_rendered : Bool
  store_reads : Nat
  store_writes : Nat
  eval_calls : Nat
  page_var : String
deriving DecidableEq

/-- One navigation render of the selected page (no form submitted, no button
pressed, no file in the uploader), following the if/elif chain of lines
281-758.  The chain dispatches on the value `page` had when it was entered;
a gated page whose session is not logged in renders only a warning and
reassigns the local variable `page` to "Login" — the chain is not re-entered,
so nothing else is rendered in that run.  `schedule` and `reminders` are the
rows the store returns for the session user. -/
def render_app (page : Page) (s : Session) (schedule : List Entry) (reminders : List RemRow) :
    Except PyError RenderOut :=
  match page with
  | Page.home =>
    Except.ok ⟨[], ["Welcome to Your Medicine Reminder App!", "Project Overview",
      "Key Features", "Benefits of Using This App"], false, false, 0, 0, 0, "Home"⟩
  | Page.dashboard =>
    if s.logged_in = false then
      Except.ok ⟨["You need to log in to access the Home page."], [], false, false,
        0, 0, 0, "Login"⟩
    else
      Except.ok ⟨[], ["Welcome to Your Medicine Reminder Dashboard!", "Quick Overview",
        "Medication Schedule Overview"] ++
        (if schedule.isEmpty then ["No medication schedule available yet."]
         else "Your Medication Schedule" :: schedule.map Entry.medicine_name),
        false, false, 3, 0, 0, "Dashboard"⟩
  | Page.login =>
    Except.ok ⟨[], ["User Login"], true, false, 0, 0, 0, "Login"⟩
  | Page.register =>
    Except.ok ⟨[], ["User Registration"], false, true, 0, 0, 0, "Register"⟩
  | Page.schedule =>
    if s.logged_in = false then
      Except.ok ⟨["You need to log in to access this page."], [], false, false,
        0, 0, 0, "Login"⟩
    else
      match reminder_form_dosage schedule with
      | Except.error e => Except.error e
      | Except.ok _ =>
        Except.ok ⟨[], ["Manage Medication Schedule and Reminders",
          "Add Medication Schedule", "Your Medication Schedule",
          "Set Reminder for Medicines", "Your Reminders"] ++
          reminders.map RemRow.medicine,
          false, false, 2, 0, 0, "Schedule & Reminders"⟩
  | Page.upload =>
    if s.logged_in = false then
      Except.ok ⟨["You need to log in to access this page."], [], false, false,
        0, 0, 0, "Login"⟩
    else
      Except.ok ⟨[], ["Upload Prescription (Experimental)"] ++
        (match s.vectorstore with
         | some _ => ["Current Time"]
         | none => []),
        false, false, 0, 0, 0, "Upload"⟩
  | Page.voice =>
    if s.logged_in = false then
      Except.ok ⟨["You need to log in to access this page."], [], false, false,
        0, 0, 0, "Login"⟩
    else
      Except.ok ⟨[], ["Voice Recognition (Experimental)"], false, false,
        0, 0, 0, "Voice Recognition"⟩

/-! ## Module startup (lines 23-102) -/

/-- `"GOOGLE_API_KEY" in os.environ` over the process environment. -/
def os_environ_contains (env : List (String × String)) (k : String) : Bool :=
  env.any (fun kv => kv.1 = k)

/-- Lines 25-26: when the key is absent, the fallback branch evaluates
`os.environ("GOOGLE_API_KEY")` — a call on the non-callable environ mapping,
which raises TypeError in Python before any assignment happens. -/
def api_key_setup (env : List (String × String)) :
    Except PyError (List (String × String)) :=
  if os_environ_contains env "GOOGLE_API_KEY" then Except.ok env
  else Except.error PyError.typeError

/-- Module initialization followed by one page render: the API-key fallback
check (lines 25-26), then the engine/recognizer/database initialization and
the session-state defaulting of lines 29-102, then the page chain.  `stored`
is the session state surviving from an earlier run, if any. -/
def module_init (env : List (String × String)) (page : Page) (stored : Option Session)
    (schedule : List Entry) (reminders : List RemRow) : Except PyError RenderOut :=
  match api_key_setup env with
  | Except.error e => Except.error e
  | Except.ok _ =>
    let s := match stored with
      | none => { logged_in := false, user := none, vectorstore := none }
      | some s => s
    render_app page s schedule reminders

/-! ## Helper lemmas -/

/-- The modelled splitter yields no chunks on empty text. -/
theorem split_text_empty : split_text "" = [] := by
  have h : ("" : String).toList = [] := rfl
  unfold split_text
  rw [h]
  simp [chunk_step]

/-- The dosage lookup of lines 610-611 raises StopIteration on an empty
schedule: the selectbox has no options and the filtered generator is empty. -/
theorem reminder_form_dosage_nil :
    reminder_form_dosage [] = Except.error PyError.stopIteration := rfl

/-! ## Claims -/

/-- Claim C1, counterexample: at the probe index and time "08:30 AM", the
chain's retrieval query is the time string, not the fixed generic query
"what medicine context is relevant", and the context substituted into the
prompt is not what retrieving with that generic query would give. -/
theorem claim1_counterexample :
    (run_chain probe_store id "08:30 AM").retriever_query ≠
      "what medicine context is relevant" ∧
    (run_chain probe_store id "08:30 AM").context ≠
      format_docs (probe_store.as_retriever "what medicine context is relevant") := by
  constructor <;> decide

/-- Claim C1, amended: the reminder evaluator retrieves the top similarity
matches using the formatted current time as the query, the retrieved chunks'
text joined by blank lines is the context field of the prompt template, and
the evaluator returns the model's reply to the filled template. -/
theorem claim1_amended (vs : VectorStore) (llm : String → String) (t : String) :
    (run_chain vs llm t).retriever_query = t ∧
    (run_chain vs llm t).context = format_docs (vs.as_retriever t) ∧
    (run_chain vs llm t).prompt = prompt_template t (format_docs (vs.as_retriever t)) ∧
    check_medicine_time vs llm t = llm (prompt_template t (format_docs (vs.as_retriever t))) :=
  ⟨rfl, rfl, rfl, rfl⟩

/-- Claim C2, counterexample: in the automatic-checking loop an evaluator
failure is not caught — the first iteration with a failing call exits the
handler with the exception and surfaces no error message. -/
theorem claim2_counterexample :
    auto_check_loop (fun _ => Except.error "boom") 0 ⟨false, [], []⟩ 1 =
      ⟨⟨false, [], []⟩, [Event.evalReminder], LoopExit.exception "boom"⟩ := rfl

/-- Claim C2, amended: an evaluator failure on the one-shot button path is
caught at the call site and surfaced as an on-screen "Error: ..." message,
while an evaluator failure in an automatic-checking iteration is not caught
and propagates out of the page handler. -/
theorem claim2_amended (e : String) (eng : Engine) (i fuel : Nat) :
    one_shot_check (Except.error e) eng =
      (eng, [Event.evalReminder, Event.stError ("Error: " ++ e)]) ∧
    (auto_check_loop (fun _ => Except.error e) i eng (fuel + 1)).exit =
      LoopExit.exception e ∧
    (auto_check_loop (fun _ => Except.error e) i eng (fuel + 1)).events =
      [Event.evalReminder] :=
  ⟨rfl, rfl, rfl⟩

/-- Claim C3: on each gated page with the logged-in flag unset, the handler
performs no store read/write and no evaluator call — but it renders only a
warning and reassigns the already-dispatched local page variable, so the
Login page's form is not rendered in that run. -/
theorem claim3_gate_eval :
    render_app Page.dashboard ⟨false, none, none⟩ [] [] =
      Except.ok ⟨["You need to log in to access the Home page."], [], false, false,
        0, 0, 0, "Login"⟩ ∧
    render_app Page.schedule ⟨false, none, none⟩ [] [] =
      Except.ok ⟨["You need to log in to access this page."], [], false, false,
        0, 0, 0, "Login"⟩ ∧
    render_app Page.upload ⟨false, none, none⟩ [] [] =
      Except.ok ⟨["You need to log in to access this page."], [], false, false,
        0, 0, 0, "Login"⟩ ∧
    render_app Page.voice ⟨false, none, none⟩ [] [] =
      Except.ok ⟨["You need to log in to access this page."], [], false, false,
        0, 0, 0, "Login"⟩ :=
  ⟨rfl, rfl, rfl, rfl⟩

/-- Claim C4: when the concatenated extracted text of the uploaded PDF is
empty, ingestion fails with a propagated IndexError and never stores an
index in the session. -/
theorem claim4_empty_text_ingest_fails (pages : List String) (s : Session)
    (h : extract_concat pages = "") :
    upload_ingest pages s = Except.error PyError.indexError ∧
    ∀ s', upload_ingest pages s ≠ Except.ok s' := by
  have h1 : split_text (extract_concat pages) = ([] : List String) := by
    rw [h]; exact split_text_empty
  refine ⟨?_, ?_⟩ <;> simp [upload_ingest, h1, from_texts]

/-- Witness for C4 at a two-page PDF whose pages both extract to "". -/
theorem claim4_witness :
    extract_concat ["", ""] = "" ∧
    upload_ingest ["", ""] ⟨false, none, none⟩ = Except.error PyError.indexError :=
  ⟨rfl, (claim4_empty_text_ingest_fails ["", ""] ⟨false, none, none⟩ rfl).1⟩

/-- Claim C6: a registration submission whose password and confirmation
differ reports the inline mismatch error, leaves the credential store
unchanged and never invokes the store's register operation. -/
theorem claim6_password_mismatch (store : List UserRecord) (u p c : String)
    (h : p ≠ c) :
    register_page store u p c = ⟨store, ["Passwords do not match!"], [], false⟩ := by
  simp [register_page, h]

/-- Witness for C6 at a concrete mismatched submission. -/
theorem claim6_witness :
    ("pw1" : String) ≠ "pw2" ∧
    register_page [] "alice" "pw1" "pw2" =
      ⟨[], ["Passwords do not match!"], [], false⟩ :=
  ⟨by decide, claim6_password_mismatch [] "alice" "pw1" "pw2" (by decide)⟩

/-- Claim C7: with the correct username registered under password `p` and a
submitted password `q ≠ p`, login returns no record and the page handler
leaves the session unchanged (logged-in flag unset, user unassigned),
reporting the generic authentication error. -/
theorem claim7_wrong_password_fails (store : List UserRecord) (s : Session)
    (u p q : String) (_hmem : UserRecord.mk u p ∈ store)
    (huniq : ∀ r ∈ store, r.username = u → r.password = p) (hne : q ≠ p) :
    login_user store u q = none ∧
    login_page store s u q = ⟨s, ["Invalid username or password"], []⟩ := by
  have hnone : login_user store u q = none := by
    unfold login_user
    cases hf : store.find? (fun r => r.username = u && r.password = q) with
    | none => rfl
    | some r =>
      have hr := List.find?_some hf
      have hm := List.mem_of_find?_eq_some hf
      simp only [Bool.and_eq_true, decide_eq_true_eq] at hr
      have hq : q = p := by rw [← hr.2]; exact huniq r hm hr.1
      exact absurd hq hne
  exact ⟨hnone, by simp [login_page, hnone]⟩

/-- Witness for C7 at the spec's scenario store. -/
theorem claim7_witness :
    login_user [⟨"alice", "pw1"⟩] "alice" "pw2" = none ∧
    login_page [⟨"alice", "pw1"⟩] ⟨false, none, none⟩ "alice" "pw2" =
      ⟨⟨false, none, none⟩, ["Invalid username or password"], []⟩ :=
  claim7_wrong_password_fails [⟨"alice", "pw1"⟩] ⟨false, none, none⟩
    "alice" "pw1" "pw2" (by decide) (by decide) (by decide)

/-- Claim C9: with GOOGLE_API_KEY absent from the environment, module
initialization stops with the TypeError raised by the fallback branch's call
on `os.environ`, so no page render is ever produced. -/
theorem claim9_missing_key_type_error (env : List (String × String)) (page : Page)
    (stored : Option Session) (schedule : List Entry) (reminders : List RemRow)
    (h : os_environ_contains env "GOOGLE_API_KEY" = false) :
    module_init env page stored schedule reminders = Except.error PyError.typeError := by
  simp [module_init, api_key_setup, h]

/-- Witness for C9 at the empty environment. -/
theorem claim9_witness :
    os_environ_contains [] "GOOGLE_API_KEY" = false ∧
    module_init [] Page.home none [] [] = Except.error PyError.typeError :=
  ⟨rfl, claim9_missing_key_type_error [] Page.home none [] [] rfl⟩

/-- Claim C10: for a logged-in session whose medication schedule is empty,
rendering the Schedule & Reminders page raises an uncaught StopIteration in
the reminder form's dosage lookup instead of rendering the page. -/
theorem claim10_empty_schedule_crash (s : Session) (reminders : List RemRow)
    (hlog : s.logged_in = true) :
    render_app Page.schedule s [] reminders = Except.error PyError.stopIteration := by
  simp [render_app, hlog, reminder_form_dosage_nil]

/-- Claim C5: once automatic checking is on, the loop has no normal exit —
under any finite observation bound it is still iterating (never `completed`,
never returning control to the rest of the page handler), and as long as the
evaluator calls return normally every iteration performs one evaluator call
and one fixed 60-second sleep. -/
theorem claim5_loop_never_returns (check : Nat → Except String String)
    (h : ∀ j, (check j).isOk = true) (i : Nat) (eng : Engine) (fuel : Nat) :
    (auto_check_loop check i eng fuel).exit = LoopExit.fuelExhausted ∧
    ((auto_check_loop check i eng fuel).events.filter isEval).length = fuel ∧
    ((auto_check_loop check i eng fuel).events.filter isSleep).length = fuel ∧
    (auto_check_loop check i eng fuel).events.all sleepIs60 = true := by
  induction fuel generalizing i eng with
  | zero => exact ⟨rfl, rfl, rfl, rfl⟩
  | succ n ih =>
    have hi := h i
    cases hc : check i with
    | error e => rw [hc] at hi; exact absurd hi (by simp [Except.isOk, Except.toBool])
    | ok reminder =>
      unfold auto_check_loop
      rw [hc]
      by_cases hb : eng.isBusy = true
      · obtain ⟨ih1, ih2, ih3, ih4⟩ := ih (i + 1) eng
        simp [hb, ih1, ih2, ih3, ih4, isEval, isSleep, sleepIs60]
      · obtain ⟨ih1, ih2, ih3, ih4⟩ := ih (i + 1) ((eng.say reminder).runAndWait)
        simp [hb, ih1, ih2, ih3, ih4, isEval, isSleep, sleepIs60]

/-- Witness for C5: a two-iteration observation of a loop whose evaluator
always succeeds is still running. -/
theorem claim5_witness :
    (auto_check_loop (fun _ => Except.ok "Take aspirin") 0 ⟨false, [], []⟩ 2).exit =
      LoopExit.fuelExhausted :=
  (claim5_loop_never_returns (fun _ => Except.ok "Take aspirin") (fun _ => rfl)
    0 ⟨false, [], []⟩ 2).1

/-- Claim C8: at both call sites — the one-shot button path and every
iteration of the automatic-checking loop — the engine's busy flag is checked
first and speaking is skipped when it is set, so every recorded `say` call
happened with the engine idle. -/
theorem claim8_say_gated_by_busy (check : Except String String)
    (loopCheck : Nat → Except String String) (eng eng2 : Engine) (i fuel : Nat) :
    (one_shot_check check eng).2.all sayRespectsBusy = true ∧
    (auto_check_loop loopCheck i eng2 fuel).events.all sayRespectsBusy = true := by
  constructor
  · cases check with
    | error e => simp [one_shot_check, sayRespectsBusy]
    | ok reminder =>
      by_cases hw : reminder = "No medicines scheduled for now."
      · simp [one_shot_check, hw, sayRespectsBusy]
      · by_cases hb : eng.isBusy = true
        · simp [one_shot_check, hw, hb, sayRespectsBusy]
        · simp [one_shot_check, hw, hb, sayRespectsBusy]
  · induction fuel generalizing i eng2 with
    | zero => rfl
    | succ n ih =>
      cases hc : loopCheck i with
      | error e =>
        unfold auto_check_loop
        rw [hc]
        simp [sayRespectsBusy]
      | ok reminder =>
        unfold auto_check_loop
        rw [hc]
        by_cases hb : eng2.isBusy = true
        · have iha := ih eng2 (i + 1)
          simp [hb, sayRespectsBusy, iha]
        · have iha := ih ((eng2.say reminder).runAndWait) (i + 1)
          simp [hb, sayRespectsBusy, iha]

/-- Witness for C10 at a concrete logged-in session. -/
theorem claim10_witness :
    (Session.mk true (some "alice") none).logged_in = true ∧
    render_app Page.schedule ⟨true, some "alice", none⟩ [] [] =
      Except.error PyError.stopIteration :=
  ⟨rfl, claim10_empty_schedule_crash ⟨true, some "alice", none⟩ [] rfl⟩

end MedApp
